import Mathlib

/-!
Shallow embedding of the repository's two notebooks: the legal-document
RAG pipeline (file discovery, batch parsing, build-or-load of a persisted
vector index, querying) and the AstraDB demo (PDF download, parsing,
indexing, querying).  The repository's own code is orchestration glue;
the external collaborators it calls (the parsing service, the embedding
model, the generation model, the index library's persistence layer) are
not part of the repository and are modelled from the spec's abstract
collaborator interfaces; each such definition carries a doc comment
starting with "Modelled from the spec:".
-/

namespace LlamaParseRepo

/-- A parsed document, as produced by the parsing collaborator: an
identifier (the source path), a body of parsed text/markdown, and a
key-value metadata mapping (the `extra_info` passed to `load_data`). -/
structure Document where
  id : String
  body : String
  metadata : List (String × String)
deriving DecidableEq, Repr

/-- One entry of a directory listing, as seen by `os.listdir`: its name
and whether `os.path.isfile(os.path.join(data_dir, name))` holds (false
for subdirectories and other non-regular entries). -/
structure DirEntry where
  name : String
  isFile : Bool
deriving DecidableEq, Repr

/-- A model of the directory tree visible to `os.listdir`: a directory
path maps to `some` flat listing of its direct entries, or to `none`
when the directory does not exist (in which case `os.listdir` raises
`FileNotFoundError`). -/
def DirFS : Type := String → Option (List DirEntry)

/-- `os.path.join(a, b)` for the simple relative paths the notebook uses. -/
def os_path_join (a b : String) : String := a ++ "/" ++ b

/-- Errors of the ingestion side of the pipeline. -/
inductive IngestError where
  | missingDirectory
deriving DecidableEq, Repr

/-- Errors an individual parse of one file can produce (malformed input,
or a failure of the network collaborator). -/
inductive ParseError where
  | malformedInput
  | networkFailure
deriving DecidableEq, Repr

/-- The notebook's default data directory (`DATA_DIR = "data"`). -/
def DATA_DIR : String := "data"

/-- Embedding of the notebook's `get_data_files`:

```python
def get_data_files(data_dir=DATA_DIR) -> list[str]:
    files = []
    for f in os.listdir(data_dir):
        fname = os.path.join(data_dir, f)
        if os.path.isfile(fname):
            files.append(fname)
    return files
```

`os.listdir` lists only the direct entries of `data_dir` (non-recursive)
and raises when the directory does not exist; only entries for which
`os.path.isfile` holds are kept. -/
def get_data_files (data_dir : String) (fs : DirFS) :
    Except IngestError (List String) :=
  match fs data_dir with
  | none => .error .missingDirectory
  | some entries =>
      .ok (entries.filterMap fun e =>
        if e.isFile then some (os_path_join data_dir e.name) else none)

/-- Modelled from the spec: the parsing collaborator's batch call
`parser.load_data(files, extra_info=...)`.  The spec's contract is
`ParseService.parse(file) -> Document (or failure)`; the batch submits
every file, yields one result per input item, enriches each successful
Document with the caller-supplied `extra_info` metadata, and reports an
individual failure as an error associated with that input item rather
than aborting the batch.  The parsing engine itself is external to the
repository and is taken as an abstract function `parse`. -/
def load_data (parse : String → Except ParseError String)
    (extra_info : List (String × String)) (files : List String) :
    List (String × Except ParseError Document) :=
  files.map fun f =>
    (f, (parse f).map fun body => { id := f, body := body, metadata := extra_info })

/-- The ingestion pipeline of the notebook: discover the regular files of
the data directory, then submit them as one batch to the parsing
collaborator. -/
def Ingest (data_dir : String) (fs : DirFS)
    (parse : String → Except ParseError String)
    (extra_info : List (String × String)) :
    Except IngestError (List (String × Except ParseError Document)) :=
  (get_data_files data_dir fs).map (load_data parse extra_info)

/-- An in-memory vector index: the fragment contents it stores together
with the vector computed for each by the embedding collaborator. -/
structure Index where
  nodes : List String
  embeddings : List (List Int)
deriving DecidableEq, Repr

/-- Modelled from the spec: `VectorStoreIndex(documents, embed_model=...)`
constructs a new Index from the documents, using the embedder to compute
a vector representation of each document body for retrieval. -/
def VectorStoreIndex (documents : List Document) (embed : String → List Int) : Index :=
  { nodes := documents.map (fun d => d.body)
    embeddings := documents.map (fun d => embed d.body) }

/-- The state persisted at a persistence path: either a complete snapshot
of an Index, or a partial/corrupt snapshot (e.g. a truncated file). -/
inductive PersistedState where
  | complete (idx : Index)
  | corrupt
deriving DecidableEq, Repr

/-- A model of the storage visible to the Index Manager: a persistence
path maps to `some` persisted state, or to `none` when nothing exists at
that path (`os.path.exists` is false exactly then). -/
def StoreFS : Type := String → Option PersistedState

/-- Errors of the Index Manager's load path. -/
inductive IndexError where
  | corruptIndex
deriving DecidableEq, Repr

/-- Modelled from the spec: `load_index_from_storage` deserializes the
Index found at a persistence path.  A complete snapshot loads back to the
Index it was persisted from; partial/corrupt persisted state fails with a
distinguishable "corrupt index" error rather than producing a usable
empty Index. -/
def load_index_from_storage : PersistedState → Except IndexError Index
  | .complete idx => .ok idx
  | .corrupt => .error .corruptIndex

/-- Embedding of the notebook's build-or-load cell (the source checks
`os.path.exists("storage_legal")` and persists to `"./storage_legal"`,
the same directory; here the path is the parameter `persistPath`):

```python
if not os.path.exists("storage_legal"):
    index = VectorStoreIndex(documents, embed_model=embed_model)
    index.storage_context.persist(persist_dir="./storage_legal")
else:
    ctx = StorageContext.from_defaults(persist_dir="./storage_legal")
    index = load_index_from_storage(ctx)
```

On the build path, `storage_context.persist` (modelled from the spec's
guarantee) leaves a complete, loadable snapshot of the new Index at the
persistence path; the returned pair is the Index together with the
storage state after the call. -/
def buildOrLoad (fs : StoreFS) (persistPath : String)
    (documents : List Document) (embed : String → List Int) :
    Except IndexError (Index × StoreFS) :=
  match fs persistPath with
  | none =>
      let index := VectorStoreIndex documents embed
      .ok (index, fun q => if q = persistPath then some (.complete index) else fs q)
  | some st => (load_index_from_storage st).map (fun idx => (idx, fs))

/-- A grounding fragment retrieved for a query: a content excerpt
together with its relevance score for that query. -/
structure Fragment where
  content : String
  score : Int
deriving DecidableEq, Repr

/-- Dot product of two vectors, the similarity measure of the model. -/
def dot : List Int → List Int → Int
  | a :: as, b :: bs => a * b + dot as bs
  | _, _ => 0

/-- Insert a fragment into a list kept sorted by descending score. -/
def insertByScore (f : Fragment) : List Fragment → List Fragment
  | [] => [f]
  | g :: gs => if f.score ≤ g.score then g :: insertByScore f gs else f :: g :: gs

/-- Sort fragments by descending relevance score. -/
def sortByScore : List Fragment → List Fragment
  | [] => []
  | f :: fs => insertByScore f (sortByScore fs)

/-- Score every stored node of the index against a query via the
embedding collaborator. -/
def scoreNodes (index : Index) (embed : String → List Int) (q : String) :
    List Fragment :=
  (index.nodes.zip index.embeddings).map fun p =>
    { content := p.1, score := dot (embed q) p.2 }

/-- Modelled from the spec: retrieval finds the top-K most relevant
fragments of the index by vector similarity, ordered by relevance. -/
def retrieve (index : Index) (embed : String → List Int) (q : String) (k : Nat) :
    List Fragment :=
  (sortByScore (scoreNodes index embed q)).take k

/-- A query response: the generated answer text paired with the ordered
sequence of grounding fragments (`source_nodes`) used to produce it. -/
structure Response where
  answer : String
  source_nodes : List Fragment
deriving DecidableEq, Repr

/-- The documented default of the retrieval collaborator's
`similarity_top_k` parameter, used when `index.as_query_engine()` is
called without it (the AstraDB notebook overrides it with 15). -/
def DEFAULT_SIMILARITY_TOP_K : Nat := 2

/-- Modelled from the spec: `ask(index, questionText)` with an explicit
retrieved-fragment count `k`.  Retrieval and generation are delegated to
the index's collaborators; the response pairs the generated answer with
the ordered grounding fragments so a caller can audit provenance. -/
def ask (index : Index) (embed : String → List Int)
    (generate : String → List Fragment → String) (q : String) (k : Nat) :
    Response :=
  { answer := generate q (retrieve index embed q k)
    source_nodes := retrieve index embed q k }

/-- `ask` with the documented default for `K`, as in
`index.as_query_engine()` of the legal-RAG notebook. -/
def ask_default (index : Index) (embed : String → List Int)
    (generate : String → List Fragment → String) (q : String) : Response :=
  ask index embed generate q DEFAULT_SIMILARITY_TOP_K

/-- The external collaborator operations of the pipeline. -/
inductive CollaboratorKind where
  | parsing
  | embedding
  | generation
deriving DecidableEq, Repr

/-- The credential configuration of a collaborator client: its API key,
or `none` when the required key is not configured. -/
structure CollaboratorConfig where
  apiKey : Option String
deriving DecidableEq, Repr

/-- Errors a collaborator invocation can raise. -/
inductive CollabError where
  | configurationError
deriving DecidableEq, Repr

/-- Modelled from the spec: an invocation of a collaborator operation
(parsing, embedding or generation).  When the required API key is not
configured, a configuration error is raised before any network call is
attempted; otherwise the network operation runs.  The result is paired
with the number of network calls the invocation attempted. -/
def collaboratorCall (kind : CollaboratorKind) (cfg : CollaboratorConfig)
    (networkOp : String → String) (input : String) :
    Except CollabError String × Nat :=
  match kind, cfg.apiKey with
  | _, none => (.error .configurationError, 0)
  | _, some _ => (.ok (networkOp input), 1)

/-- An HTTP response as returned by `requests.get`. -/
structure HttpResponse where
  status_code : Nat
  content : String
deriving DecidableEq, Repr

/-- The flat file store the AstraDB notebook writes into: a path maps to
`some` content or to `none` when no file exists there. -/
def FileStore : Type := String → Option String

/-- The target path of the AstraDB notebook's download cell. -/
def attention_pdf_path : String := "./attention.pdf"

/-- Embedding of the AstraDB notebook's download cell:

```python
response = requests.get(url)
if response.status_code == 200:
    with open(file_path, "wb") as file:
        file.write(response.content)
    print("Download complete.")
else:
    print("Error downloading the file.")
```

The cell raises no error on a non-200 status: it only prints a message
and writes nothing.  The result is the file store after the cell together
with the messages it printed. -/
def downloadFile (response : HttpResponse) (file_path : String) (fs : FileStore) :
    FileStore × List String :=
  if response.status_code = 200 then
    (fun p => if p = file_path then some response.content else fs p,
     ["Download complete."])
  else
    (fs, ["Error downloading the file."])

/-- The AstraDB pipeline prefix: the download cell runs, and the next
cell unconditionally submits the target path to the parsing collaborator
(`LlamaParse(result_type="text").load_data(file_path)`), whatever the
download's outcome.  Returns the parse step's result, the file store
after the download, and the printed messages. -/
def astraPipeline (response : HttpResponse) (fs : FileStore)
    (parse_path : String → FileStore → List Document) :
    List Document × FileStore × List String :=
  let step := downloadFile response attention_pdf_path fs
  (parse_path attention_pdf_path step.1, step.1, step.2)

/-! Concrete instances used to exercise the theorems below on closed inputs. -/

/-- A concrete document. -/
def docW : Document := { id := "data/a.pdf", body := "parsed text", metadata := [] }

/-- A concrete embedder. -/
def embedW : String → List Int := fun _ => [1, 2]

/-- The index built from the concrete document with the concrete embedder. -/
def idxW : Index := VectorStoreIndex [docW] embedW

/-- Storage in which every path holds a complete snapshot of `idxW`. -/
def fsCompleteW : StoreFS := fun _ => some (.complete idxW)

/-- Storage in which no path exists. -/
def fsNoneW : StoreFS := fun _ => none

/-- Storage in which every path holds a corrupt snapshot. -/
def fsCorruptW : StoreFS := fun _ => some .corrupt

/-- The storage left by building at path `"s"` starting from `fsNoneW`. -/
def fsAfterW : StoreFS :=
  fun q => if q = "s" then some (.complete idxW) else fsNoneW q

/-- A concrete directory tree: `"data"` holds two regular files and one
subdirectory; no other directory exists. -/
def dirFsW : DirFS :=
  fun d => if d = "data" then
    some [{ name := "a.pdf", isFile := true },
          { name := "sub", isFile := false },
          { name := "b.pdf", isFile := true }]
  else none

/-- A directory tree with no directory at all. -/
def dirFsNoneW : DirFS := fun _ => none

/-- A directory tree in which every directory exists but is empty. -/
def dirFsEmptyW : DirFS := fun _ => some []

/-- A parsing collaborator that succeeds on every file. -/
def parseOkW : String → Except ParseError String :=
  fun p => .ok ("body:" ++ p)

/-- A parsing collaborator that fails on `"bad.pdf"` and succeeds elsewhere. -/
def parseFailW : String → Except ParseError String :=
  fun p => if p = "bad.pdf" then .error .malformedInput else .ok "parsed"

/-- A concrete failed HTTP response. -/
def respFailW : HttpResponse := { status_code := 404, content := "not found" }

/-- A file store with no file anywhere. -/
def fileStoreNoneW : FileStore := fun _ => none

/-- A concrete parse step for the AstraDB pipeline. -/
def parsePathW : String → FileStore → List Document := fun _ _ => []

/-! The claims, settled. -/

/-- Claim C1: the build-or-load operation branches solely on whether
`persistPath` exists in storage — when it exists, the result is the load
of the persisted state, independent of the `documents` argument (two
calls with different documents and embedders agree); when it does not
exist, a new Index is built from the documents. -/
theorem buildOrLoad_branches_on_existence
    (fs : StoreFS) (persistPath : String) (d₁ d₂ : List Document)
    (e₁ e₂ : String → List Int) :
    (∀ st, fs persistPath = some st →
        buildOrLoad fs persistPath d₁ e₁ =
          (load_index_from_storage st).map (fun idx => (idx, fs)) ∧
        buildOrLoad fs persistPath d₁ e₁ = buildOrLoad fs persistPath d₂ e₂) ∧
    (fs persistPath = none →
        buildOrLoad fs persistPath d₁ e₁ =
          .ok (VectorStoreIndex d₁ e₁,
            fun q => if q = persistPath then
              some (.complete (VectorStoreIndex d₁ e₁)) else fs q)) := by
  constructor
  · intro st h
    constructor <;> simp [buildOrLoad, h]
  · intro h
    simp [buildOrLoad, h]

/-- Claim C1, exercised: with a persisted snapshot present, the documents
argument is ignored. -/
theorem buildOrLoad_branches_on_existence_witness :
    buildOrLoad fsCompleteW "storage_legal" [docW] embedW =
      buildOrLoad fsCompleteW "storage_legal" [] embedW :=
  ((buildOrLoad_branches_on_existence fsCompleteW "storage_legal" [docW] []
      embedW embedW).1 (.complete idxW) rfl).2

/-- Claim C3: when `persistPath` does not exist, build-or-load constructs
the new Index from the documents with the embedder and persists it; after
the call the path holds a complete snapshot, any state found there loads
back to exactly that Index, and a subsequent build-or-load succeeds by
loading it. -/
theorem buildOrLoad_builds_and_persists
    (fs : StoreFS) (persistPath : String) (documents : List Document)
    (embed : String → List Int) (h : fs persistPath = none) :
    ∃ fs₂, buildOrLoad fs persistPath documents embed =
        .ok (VectorStoreIndex documents embed, fs₂) ∧
      fs₂ persistPath = some (.complete (VectorStoreIndex documents embed)) ∧
      (∀ st, fs₂ persistPath = some st →
        load_index_from_storage st = .ok (VectorStoreIndex documents embed)) ∧
      buildOrLoad fs₂ persistPath documents embed =
        .ok (VectorStoreIndex documents embed, fs₂) := by
  refine ⟨fun q => if q = persistPath then
      some (.complete (VectorStoreIndex documents embed)) else fs q,
    ?_, ?_, ?_, ?_⟩
  · simp [buildOrLoad, h]
  · simp
  · intro st hst
    simp at hst
    rw [← hst]
    rfl
  · simp [buildOrLoad, load_index_from_storage, Except.map]

/-- Claim C3, exercised at a concrete empty storage. -/
theorem buildOrLoad_builds_and_persists_witness :
    ∃ fs₂, buildOrLoad fsNoneW "storage_legal" [docW] embedW =
        .ok (VectorStoreIndex [docW] embedW, fs₂) ∧
      fs₂ "storage_legal" = some (.complete (VectorStoreIndex [docW] embedW)) ∧
      (∀ st, fs₂ "storage_legal" = some st →
        load_index_from_storage st = .ok (VectorStoreIndex [docW] embedW)) ∧
      buildOrLoad fs₂ "storage_legal" [docW] embedW =
        .ok (VectorStoreIndex [docW] embedW, fs₂) :=
  buildOrLoad_builds_and_persists fsNoneW "storage_legal" [docW] embedW rfl

/-- Claim C4: when the persisted state at `persistPath` is corrupt,
build-or-load fails with the distinguishable corrupt-index error and
never returns a usable Index. -/
theorem buildOrLoad_corrupt_fails
    (fs : StoreFS) (persistPath : String) (documents : List Document)
    (embed : String → List Int) (h : fs persistPath = some .corrupt) :
    buildOrLoad fs persistPath documents embed = .error .corruptIndex ∧
    ∀ r, buildOrLoad fs persistPath documents embed ≠ .ok r := by
  have he : buildOrLoad fs persistPath documents embed = .error .corruptIndex := by
    simp [buildOrLoad, h, load_index_from_storage, Except.map]
  exact ⟨he, fun r hr => by rw [he] at hr; exact Except.noConfusion hr⟩

/-- Claim C4, exercised at a concrete corrupt storage. -/
theorem buildOrLoad_corrupt_fails_witness :
    buildOrLoad fsCorruptW "storage_legal" [docW] embedW =
        .error .corruptIndex ∧
    ∀ r, buildOrLoad fsCorruptW "storage_legal" [docW] embedW ≠ .ok r :=
  buildOrLoad_corrupt_fails fsCorruptW "storage_legal" [docW] embedW rfl

/-- Claim C6: build-or-load is idempotent — two successive successful
calls with the same persistence path and documents, with no storage
mutation in between other than the first call's own persist, return the
same Index, so every query is answered identically with identical
grounding-fragment ordering. -/
theorem buildOrLoad_idempotent
    (fs : StoreFS) (persistPath : String) (documents : List Document)
    (embed : String → List Int) (i₁ i₂ : Index) (fs₁ fs₂ : StoreFS)
    (h₁ : buildOrLoad fs persistPath documents embed = .ok (i₁, fs₁))
    (h₂ : buildOrLoad fs₁ persistPath documents embed = .ok (i₂, fs₂)) :
    i₁ = i₂ ∧
    ∀ emb gen q k, ask i₁ emb gen q k = ask i₂ emb gen q k := by
  have hidx : i₁ = i₂ := by
    cases hfs : fs persistPath with
    | none =>
        simp [buildOrLoad, hfs] at h₁
        obtain ⟨hi, hf⟩ := h₁
        subst hi
        subst hf
        simp [buildOrLoad, load_index_from_storage, Except.map] at h₂
        exact h₂.1
    | some st =>
        cases st with
        | complete idx =>
            simp [buildOrLoad, hfs, load_index_from_storage, Except.map] at h₁
            obtain ⟨hi, hf⟩ := h₁
            subst hi
            subst hf
            simp [buildOrLoad, hfs, load_index_from_storage, Except.map] at h₂
            exact h₂.1
        | corrupt =>
            simp [buildOrLoad, hfs, load_index_from_storage, Except.map] at h₁
  exact ⟨hidx, fun emb gen q k => by rw [hidx]⟩

/-- Claim C6, exercised: build at an empty storage, then call again. -/
theorem buildOrLoad_idempotent_witness :
    idxW = idxW ∧ ∀ emb gen q k, ask idxW emb gen q k = ask idxW emb gen q k :=
  buildOrLoad_idempotent fsNoneW "s" [docW] embedW idxW idxW fsAfterW fsAfterW
    rfl rfl

/-- Filtering through an `if`-guarded `filterMap` keeps exactly the
entries satisfying the guard. -/
theorem length_filterMap_guard {α β : Type} (g : α → β) (p : α → Bool)
    (l : List α) :
    (l.filterMap fun e => if p e then some (g e) else none).length
      = (l.filter p).length := by
  induction l with
  | nil => rfl
  | cons a l ih =>
      cases h : p a <;>
        simp [List.filterMap_cons, List.filter_cons, h, ih]

/-- Claim C2: for a directory that exists, when every parse succeeds,
ingestion returns one result per regular file directly in the directory
(entries that are not regular files yield nothing and are not descended
into), the cardinality equals the number of regular files, and each
produced Document carries the caller-supplied metadata and the path of
its own source file. -/
theorem Ingest_one_document_per_regular_file
    (D : String) (entries : List DirEntry) (fs : DirFS)
    (parse : String → Except ParseError String)
    (info : List (String × String))
    (hdir : fs D = some entries)
    (hok : ∀ p, ∃ body, parse p = .ok body) :
    ∃ results, Ingest D fs parse info = .ok results ∧
      results.length = (entries.filter fun e => e.isFile).length ∧
      ∀ r ∈ results, ∃ doc, r.2 = .ok doc ∧
        doc.metadata = info ∧ doc.id = r.1 := by
  refine ⟨load_data parse info (entries.filterMap fun e =>
      if e.isFile then some (os_path_join D e.name) else none), ?_, ?_, ?_⟩
  · simp [Ingest, get_data_files, hdir, Except.map]
  · simp only [load_data, List.length_map]
    exact length_filterMap_guard _ _ entries
  · intro r hr
    simp only [load_data, List.mem_map] at hr
    obtain ⟨f, hf, hrf⟩ := hr
    obtain ⟨body, hb⟩ := hok f
    refine ⟨{ id := f, body := body, metadata := info }, ?_, rfl, ?_⟩
    · rw [← hrf]
      simp [hb, Except.map]
    · rw [← hrf]

/-- Claim C2, exercised on a directory with two regular files and a
subdirectory. -/
theorem Ingest_one_document_per_regular_file_witness :
    ∃ results, Ingest "data" dirFsW parseOkW [("name", "legal docs")] =
        .ok results ∧
      results.length =
        (([{ name := "a.pdf", isFile := true },
           { name := "sub", isFile := false },
           { name := "b.pdf", isFile := true }] : List DirEntry).filter
          fun e => e.isFile).length ∧
      ∀ r ∈ results, ∃ doc, r.2 = .ok doc ∧
        doc.metadata = [("name", "legal docs")] ∧ doc.id = r.1 :=
  Ingest_one_document_per_regular_file "data"
    [{ name := "a.pdf", isFile := true },
     { name := "sub", isFile := false },
     { name := "b.pdf", isFile := true }]
    dirFsW parseOkW [("name", "legal docs")] rfl
    (fun p => ⟨"body:" ++ p, rfl⟩)

/-- Claim C5: when an individual file of a batch fails to parse, the
batch is not aborted — the result still has one entry per submitted file,
the failure appears as the error associated with that specific file, and
every file's own parse outcome (in particular every other file's
Document) still appears associated with it. -/
theorem load_data_isolates_failures
    (parse : String → Except ParseError String)
    (info : List (String × String)) (files : List String)
    (x : String) (e : ParseError)
    (hx : x ∈ files) (hfail : parse x = .error e) :
    (load_data parse info files).length = files.length ∧
    (x, Except.error e) ∈ load_data parse info files ∧
    ∀ f ∈ files,
      (f, (parse f).map fun body => { id := f, body := body, metadata := info })
        ∈ load_data parse info files := by
  refine ⟨by simp [load_data], ?_, ?_⟩
  · have hmem : (x, (parse x).map fun body =>
        ({ id := x, body := body, metadata := info } : Document))
          ∈ load_data parse info files :=
      List.mem_map_of_mem _ hx
    rw [hfail] at hmem
    simpa [Except.map] using hmem
  · intro f hf
    exact List.mem_map_of_mem _ hf

/-- Claim C5, exercised on a batch of two files of which one fails. -/
theorem load_data_isolates_failures_witness :
    (load_data parseFailW [] ["good.pdf", "bad.pdf"]).length =
        (["good.pdf", "bad.pdf"] : List String).length ∧
    ("bad.pdf", Except.error ParseError.malformedInput)
      ∈ load_data parseFailW [] ["good.pdf", "bad.pdf"] ∧
    ∀ f ∈ (["good.pdf", "bad.pdf"] : List String),
      (f, (parseFailW f).map fun body =>
          ({ id := f, body := body, metadata := [] } : Document))
        ∈ load_data parseFailW [] ["good.pdf", "bad.pdf"] :=
  load_data_isolates_failures parseFailW [] ["good.pdf", "bad.pdf"]
    "bad.pdf" .malformedInput (by simp) rfl

/-- Claim C7: any collaborator operation (parsing, embedding or
generation) invoked while its required API key is not configured raises
the configuration error with zero network calls attempted. -/
theorem collaboratorCall_missing_key
    (kind : CollaboratorKind) (cfg : CollaboratorConfig)
    (networkOp : String → String) (input : String)
    (h : cfg.apiKey = none) :
    collaboratorCall kind cfg networkOp input =
      (.error .configurationError, 0) := by
  cases kind <;> simp [collaboratorCall, h]

/-- Claim C7, exercised on a parsing call with no key configured. -/
theorem collaboratorCall_missing_key_witness :
    collaboratorCall .parsing { apiKey := none } id "attention.pdf" =
      (.error .configurationError, 0) :=
  collaboratorCall_missing_key .parsing { apiKey := none } id
    "attention.pdf" rfl

/-- Claim C8: the query operation returns a Response holding both the
generated answer text and the ordered sequence of grounding fragments it
was produced from; the number of retrieved fragments is bounded by the
configurable parameter `k`, and the default query engine uses the
documented default for `k`. -/
theorem ask_returns_answer_and_grounding
    (index : Index) (embed : String → List Int)
    (generate : String → List Fragment → String) (q : String) (k : Nat) :
    (ask index embed generate q k).answer =
        generate q (retrieve index embed q k) ∧
    (ask index embed generate q k).source_nodes = retrieve index embed q k ∧
    (retrieve index embed q k).length ≤ k ∧
    ask_default index embed generate q =
      ask index embed generate q DEFAULT_SIMILARITY_TOP_K := by
  refine ⟨rfl, rfl, ?_, rfl⟩
  simp only [retrieve, List.length_take]
  exact Nat.min_le_left _ _

/-- Claim C9: when the input directory does not exist, file discovery
raises the missing-directory error and never returns a list, while an
existing empty directory yields the empty list — so a missing directory
is distinguishable from an empty one. -/
theorem get_data_files_missing_directory
    (data_dir : String) (fs : DirFS) (h : fs data_dir = none) :
    get_data_files data_dir fs = .error .missingDirectory ∧
    (∀ l, get_data_files data_dir fs ≠ .ok l) ∧
    ∀ fs₂ : DirFS, fs₂ data_dir = some [] →
      get_data_files data_dir fs₂ = .ok [] ∧
      get_data_files data_dir fs ≠ get_data_files data_dir fs₂ := by
  have he : get_data_files data_dir fs = .error .missingDirectory := by
    simp [get_data_files, h]
  refine ⟨he, fun l hl => by rw [he] at hl; exact Except.noConfusion hl, ?_⟩
  intro fs₂ h₂
  have he₂ : get_data_files data_dir fs₂ = .ok [] := by
    simp [get_data_files, h₂]
  exact ⟨he₂, by rw [he, he₂]; exact fun hc => Except.noConfusion hc⟩

/-- Claim C9, exercised on a tree with no directory, against one whose
directories are all empty. -/
theorem get_data_files_missing_directory_witness :
    get_data_files "data" dirFsNoneW = .error .missingDirectory ∧
    (∀ l, get_data_files "data" dirFsNoneW ≠ .ok l) ∧
    ∀ fs₂ : DirFS, fs₂ "data" = some [] →
      get_data_files "data" fs₂ = .ok [] ∧
      get_data_files "data" dirFsNoneW ≠ get_data_files "data" fs₂ :=
  get_data_files_missing_directory "data" dirFsNoneW rfl

/-- Claim C10: in the AstraDB pipeline, a download whose HTTP status is
not 200 does not raise and does not stop the pipeline — the cell only
prints the error message, writes no file at the target path, and the
parsing step is still attempted against that path. -/
theorem download_failure_does_not_stop_pipeline
    (response : HttpResponse) (fs : FileStore)
    (parse_path : String → FileStore → List Document)
    (hstatus : response.status_code ≠ 200)
    (hnofile : fs attention_pdf_path = none) :
    downloadFile response attention_pdf_path fs =
        (fs, ["Error downloading the file."]) ∧
    (downloadFile response attention_pdf_path fs).1 attention_pdf_path = none ∧
    astraPipeline response fs parse_path =
      (parse_path attention_pdf_path fs, fs, ["Error downloading the file."]) := by
  have hd : downloadFile response attention_pdf_path fs =
      (fs, ["Error downloading the file."]) := by
    simp [downloadFile, hstatus]
  exact ⟨hd, by rw [hd]; exact hnofile, by simp [astraPipeline, hd]⟩

/-- Claim C10, exercised on a 404 response over an empty file store. -/
theorem download_failure_does_not_stop_pipeline_witness :
    downloadFile respFailW attention_pdf_path fileStoreNoneW =
        (fileStoreNoneW, ["Error downloading the file."]) ∧
    (downloadFile respFailW attention_pdf_path fileStoreNoneW).1
        attention_pdf_path = none ∧
    astraPipeline respFailW fileStoreNoneW parsePathW =
      (parsePathW attention_pdf_path fileStoreNoneW, fileStoreNoneW,
       ["Error downloading the file."]) :=
  download_failure_does_not_stop_pipeline respFailW fileStoreNoneW parsePathW
    (by decide) rfl

end LlamaParseRepo
